import Mathlib

/-!
Verification development for `heatclient/v1/shell.py`, a command-line
client surface for an orchestration service.  The Python module is
shallowly embedded: Python strings become `String`, Python dicts become
insertion-ordered association lists, Python exceptions become an explicit
`PyExc` type threaded through `Except` (for functions that only raise) or
a `state × Option PyExc` pair (for functions that mutate a dict in place
and may raise).  `json.loads` is modelled as an opaque injective tag on
the raw text, since no claim depends on the structure of the parsed
document.  The remote client `hc` is modelled as a record of response
functions, and command handlers return the trace of remote `stacks.*`
calls they perform.
-/

/-- Python exceptions relevant to the module: `heatclient.exc.CommandError`,
`heatclient.exc.HTTPNotFound`, the `ValueError` raised by a failed tuple
unpack, and an opaque constructor for any other exception a remote call
may raise. -/
inductive PyExc where
  | commandError : String → PyExc
  | httpNotFound : PyExc
  | valueError : PyExc
  | otherExc : String → PyExc
deriving DecidableEq, Repr

/-- Result of `json.loads` on a raw text, kept opaque: no claim inspects
the parsed document beyond which text it was parsed from. -/
inductive JsonDoc where
  | loads : String → JsonDoc
deriving DecidableEq, Repr

/-- Values stored in the keyword-argument dicts the handlers build:
strings, Python ints (timeout), parsed JSON documents and parameter maps. -/
inductive FieldValue where
  | str : String → FieldValue
  | int : Int → FieldValue
  | doc : JsonDoc → FieldValue
  | params : List (String × String) → FieldValue
deriving DecidableEq, Repr

/-- A Python dict with string keys, as an insertion-ordered association
list with at most one entry per key. -/
abbrev Dict (α : Type) := List (String × α)

/-- Python dict assignment `d[k] = v`: overwrite in place if the key is
present, append otherwise. -/
def dictInsert {α : Type} (d : Dict α) (k : String) (v : α) : Dict α :=
  if d.any (fun p => p.1 == k) then
    d.map (fun p => if p.1 == k then (p.1, v) else p)
  else
    d ++ [(k, v)]

/-- Python dict lookup `d[k]` (as an option). -/
def lookupD {α : Type} (d : Dict α) (k : String) : Option α :=
  match d with
  | [] => none
  | p :: rest => if p.1 == k then some p.2 else lookupD rest k

/-- Python `s.split(sep)` for a single-character separator, on the
character list of the string: splitting keeps empty segments, and the
split of the empty list is one empty segment. -/
def pySplit (sep : Char) : List Char → List (List Char)
  | [] => [[]]
  | c :: cs =>
    if c = sep then [] :: pySplit sep cs
    else
      match pySplit sep cs with
      | [] => [[c]]
      | seg :: rest => (c :: seg) :: rest

/-- Python `s.split(sep)` on `String`s. -/
def pySplitStr (s : String) (sep : Char) : List String :=
  (pySplit sep s.data).map (fun l => ⟨l⟩)

/-- The body of the `for` loop of `format_parameters`: process the
segments in order, unpacking `(n, v) = p.split('=')` and assigning
`parameters[n] = v`; a segment that does not unpack into exactly two
parts raises `ValueError`, abandoning the loop as in Python. -/
def formatLoop (segs : List String) (parameters : Dict String) :
    Except PyExc (Dict String) :=
  match segs with
  | [] => .ok parameters
  | p :: rest =>
    match pySplitStr p '=' with
    | [n, v] => formatLoop rest (dictInsert parameters n v)
    | _ => .error .valueError

/-- Embedding of `format_parameters(params)` from `heatclient/v1/shell.py`: reformat a
`K1=V1;K2=V2;...` option string into the dict expected by the API.  The
argument is `none` when the flag was absent; an un-unpackable segment
raises `ValueError` as in Python. -/
def format_parameters (params : Option String) : Except PyExc (Dict String) :=
  match params with
  | none => .ok []
  | some s =>
    if s = "" then .ok []
    else formatLoop (pySplitStr s ';') []

/-- Splitting one segment on `=` into its `(key, value)` pair, following
the wording of the spec; `none` when the segment does not have exactly one `=`. -/
def specPair (seg : String) : Option (String × String) :=
  match pySplitStr seg '=' with
  | [n, v] => some (n, v)
  | _ => none

/-- All segments split into `(key, value)` pairs, following the wording of the
spec; `none` as soon as any segment is malformed. -/
def specPairs (segs : List String) : Option (List (String × String)) :=
  match segs with
  | [] => some []
  | seg :: rest =>
    match specPair seg, specPairs rest with
    | some pr, some prs => some (pr :: prs)
    | _, _ => none

/-- The parameter parser as the spec describes it: empty/absent input gives
the empty map; otherwise the input is split on `;` into segments, each
segment is split on `=` into a `(key, value)` pair, and the mapping of
those keys to those values is returned (later pairs overwriting earlier
ones); a malformed segment is an error.  To be compared with
`format_parameters`, which interleaves splitting and insertion. -/
def parseSpec (input : Option String) : Except PyExc (Dict String) :=
  match input with
  | none => .ok []
  | some s =>
    if s = "" then .ok []
    else
      match specPairs (pySplitStr s ';') with
      | some prs => .ok (prs.foldl (fun acc pr => dictInsert acc pr.1 pr.2) [])
      | none => .error .valueError

/-- The value attached to the last pair with key `k` in a pair list,
`none` when no pair has that key. -/
def lastVal (k : String) : List (String × String) → Option String
  | [] => none
  | pr :: rest =>
    match lastVal k rest with
    | some v => some v
    | none => if pr.1 == k then some pr.2 else none

/-- The well-formed `(key, value)` pairs among the `;`-segments of an
input string, in order. -/
def segmentPairs (s : String) : List (String × String) :=
  (pySplitStr s ';').filterMap specPair

/-- Truthiness of an optional string argument, as the Python test `if args.x:`
sees it: absent (`None`) and the empty string are falsy. -/
def truthy : Option String → Bool
  | none => false
  | some s => !(s == "")

/-- The parsed command-line arguments record for the stack commands.
`create_timeout` carries the argparse default `60`. -/
structure Args where
  name : String := ""
  id : String := ""
  create_timeout : Int := 60
  parameters : Option String := none
  template_file : Option String := none
  template_url : Option String := none
  template_obj : Option String := none
deriving Repr

/-- The remote client `hc`: each `stacks.*` method is a response function
from the keyword-argument dict to either a normal return or a raised
exception, and `raw_request(method, url)` returns the raw body (empty
string for an empty/falsy body). -/
structure Client where
  createResult : Dict FieldValue → Except PyExc Unit
  deleteResult : Dict FieldValue → Except PyExc Unit
  getResult : Dict FieldValue → Except PyExc Unit
  updateResult : Dict FieldValue → Except PyExc Unit
  templateResult : Dict FieldValue → Except PyExc Unit
  listResult : Except PyExc Unit
  rawRequest : String → String → String

/-- Embedding of `_set_template_fields(hc, args, fields)`: mutate `fields` with the
template source selected by the `if/elif` chain over
`--template-file` / `--template-url` / `--template-object`, or raise a
`CommandError`.  `readFile` models the local filesystem read
`open(path).read()`.  The returned dict is the state of `fields` after
the call, whether or not an exception was raised. -/
def set_template_fields (readFile : String → String) (hc : Client)
    (args : Args) (fields : Dict FieldValue) :
    Dict FieldValue × Option PyExc :=
  if truthy args.template_file then
    (dictInsert fields "template"
      (.doc (.loads (readFile (args.template_file.getD "")))), none)
  else if truthy args.template_url then
    (dictInsert fields "template_url" (.str (args.template_url.getD "")), none)
  else if truthy args.template_obj then
    let template_body := hc.rawRequest "GET" (args.template_obj.getD "")
    if template_body ≠ "" then
      (dictInsert fields "template" (.doc (.loads template_body)), none)
    else
      (fields, some (.commandError
        ("Could not fetch template from " ++ args.template_obj.getD "")))
  else
    (fields, some (.commandError
      "Need to specify exactly one of --template-file, --template-url or --template-object"))

/-- The remote `stacks.*` calls a handler performs, in order, each with
the keyword-argument dict it was given. -/
inductive Call where
  | create : Dict FieldValue → Call
  | delete : Dict FieldValue → Call
  | get : Dict FieldValue → Call
  | update : Dict FieldValue → Call
  | template : Dict FieldValue → Call
  | list : Call
deriving DecidableEq, Repr

/-- Embedding of `do_list(hc)`: list the stacks of the user (one `stacks.list` call, then
table rendering, which is pure output). -/
def do_list (hc : Client) : Except PyExc (List Call) :=
  match hc.listResult with
  | .error e => .error e
  | .ok _ => .ok [Call.list]

/-- Embedding of `do_create(hc, args)`: build the payload, resolve the template
source, call `stacks.create(**fields)` and then `do_list(hc)`. -/
def do_create (readFile : String → String) (hc : Client) (args : Args) :
    Except PyExc (List Call) :=
  match format_parameters args.parameters with
  | .error e => .error e
  | .ok ps =>
    let fields0 : Dict FieldValue :=
      [("stack_name", .str args.name),
       ("timeoutmins", .int args.create_timeout),
       ("parameters", .params ps)]
    match set_template_fields readFile hc args fields0 with
    | (_, some e) => .error e
    | (fields, none) =>
      match hc.createResult fields with
      | .error e => .error e
      | .ok _ =>
        match do_list hc with
        | .error e => .error e
        | .ok t => .ok (Call.create fields :: t)

/-- Embedding of `do_delete(hc, args)`: call `stacks.delete(**fields)`, translating
`HTTPNotFound` into a `CommandError` with message `Stack not found: <id>`, then
`do_list(hc)`. -/
def do_delete (hc : Client) (args : Args) : Except PyExc (List Call) :=
  let fields : Dict FieldValue := [("stack_id", .str args.id)]
  match hc.deleteResult fields with
  | .error .httpNotFound =>
    .error (.commandError ("Stack not found: " ++ args.id))
  | .error e => .error e
  | .ok _ =>
    match do_list hc with
    | .error e => .error e
    | .ok t => .ok (Call.delete fields :: t)

/-- Embedding of `do_describe(hc, args)`: call `stacks.get(**fields)`, translating
`HTTPNotFound` into a `CommandError` with message `Stack not found: <id>`; on success
the record is printed (pure output, no further remote calls). -/
def do_describe (hc : Client) (args : Args) : Except PyExc (List Call) :=
  let fields : Dict FieldValue := [("stack_id", .str args.id)]
  match hc.getResult fields with
  | .error .httpNotFound =>
    .error (.commandError ("Stack not found: " ++ args.id))
  | .error e => .error e
  | .ok _ => .ok [Call.get fields]

/-- Embedding of `do_gettemplate(hc, args)`: call `stacks.template(**fields)`,
translating `HTTPNotFound` into a `CommandError` with message `Stack not found: <id>`;
on success the template is printed as JSON. -/
def do_gettemplate (hc : Client) (args : Args) : Except PyExc (List Call) :=
  let fields : Dict FieldValue := [("stack_id", .str args.id)]
  match hc.templateResult fields with
  | .error .httpNotFound =>
    .error (.commandError ("Stack not found: " ++ args.id))
  | .error e => .error e
  | .ok _ => .ok [Call.template fields]

/-- A concrete remote client on which every call succeeds and every raw
request returns an empty body. -/
def trivClient : Client where
  createResult := fun _ => .ok ()
  deleteResult := fun _ => .ok ()
  getResult := fun _ => .ok ()
  updateResult := fun _ => .ok ()
  templateResult := fun _ => .ok ()
  listResult := .ok ()
  rawRequest := fun _ _ => ""

/-- A concrete remote client on which `delete`, `get` and `template`
raise `HTTPNotFound`. -/
def notFoundClient : Client where
  createResult := fun _ => .ok ()
  deleteResult := fun _ => .error .httpNotFound
  getResult := fun _ => .error .httpNotFound
  updateResult := fun _ => .ok ()
  templateResult := fun _ => .error .httpNotFound
  listResult := .ok ()
  rawRequest := fun _ _ => ""

/-- The text of the template file in the end-to-end create scenario. -/
def resourcesTemplateText : String := "\x7b\"Resources\":\x7b\x7d\x7d"

/-- An arguments record with every flag absent. -/
def noSourceArgs : Args := {}

/-- An arguments record with both a template file and a template url set,
exercising the priority order. -/
def fileAndUrlArgs : Args where
  template_file := some "t.json"
  template_url := some "http"

/-- An arguments record with only the template object url set. -/
def objOnlyArgs : Args where
  template_obj := some "swift://tmpl"

/-- An arguments record naming stack `42`. -/
def stack42Args : Args where
  id := "42"

/-- The arguments of the end-to-end create scenario: stack name `foo`, a
template file path, and neither a parameters nor a timeout flag. -/
def createFooArgs (path : String) : Args where
  name := "foo"
  template_file := some path

/-- The keyword-argument dict `stacks.create` receives in the end-to-end
create scenario: stack name `foo`, the default timeout of 60 minutes, an
empty parameter map, and the parsed template file. -/
def createFooFields : Dict FieldValue :=
  [("stack_name", FieldValue.str "foo"),
   ("timeoutmins", FieldValue.int 60),
   ("parameters", FieldValue.params []),
   ("template", FieldValue.doc (JsonDoc.loads resourcesTemplateText))]

/-! ### Dictionary lemmas -/

theorem lookupD_map_overwrite {α : Type} (d : Dict α) (k : String) (v : α)
    (h : d.any (fun p => p.1 == k) = true) :
    lookupD (d.map (fun p => if p.1 == k then (p.1, v) else p)) k = some v := by
  induction d with
  | nil => simp at h
  | cons p rest ih =>
    by_cases hk : (p.1 == k) = true
    · simp only [List.map_cons, if_pos hk, lookupD, if_pos hk]
    · simp only [List.any_cons, Bool.or_eq_true, hk, Bool.false_eq_true, false_or] at h
      simp only [List.map_cons, if_neg hk, lookupD, if_neg hk]
      exact ih h

theorem lookupD_append_end {α : Type} (d : Dict α) (k : String) (v : α)
    (h : d.any (fun p => p.1 == k) = false) :
    lookupD (d ++ [(k, v)]) k = some v := by
  induction d with
  | nil => simp [lookupD]
  | cons p rest ih =>
    simp only [List.any_cons, Bool.or_eq_false_iff] at h
    simp [lookupD, h.1, ih h.2]

theorem lookupD_dictInsert_self {α : Type} (d : Dict α) (k : String) (v : α) :
    lookupD (dictInsert d k v) k = some v := by
  unfold dictInsert
  cases h : d.any (fun p => p.1 == k) with
  | true => simpa using lookupD_map_overwrite d k v h
  | false => simpa using lookupD_append_end d k v h

theorem lookupD_map_ne {α : Type} (d : Dict α) (k kx : String) (v : α) (h : kx ≠ k) :
    lookupD (d.map (fun p => if p.1 == k then (p.1, v) else p)) kx = lookupD d kx := by
  induction d with
  | nil => rfl
  | cons p rest ih =>
    by_cases hk : (p.1 == k) = true
    · have hpk : ¬((p.1 == kx) = true) := by
        have hp1 : p.1 = k := by simpa using hk
        simp [hp1, Ne.symm h]
      simp only [List.map_cons, if_pos hk, lookupD, if_neg hpk]
      exact ih
    · simp only [List.map_cons, if_neg hk, lookupD]
      by_cases hx : (p.1 == kx) = true
      · simp only [if_pos hx]
      · simp only [if_neg hx]
        exact ih

theorem lookupD_append_ne {α : Type} (d : Dict α) (k kx : String) (v : α) (h : kx ≠ k) :
    lookupD (d ++ [(k, v)]) kx = lookupD d kx := by
  induction d with
  | nil =>
    have hkx : (k == kx) = false := by simp [Ne.symm h]
    simp [lookupD, hkx]
  | cons p rest ih =>
    by_cases hx : p.1 == kx
    · simp [lookupD, hx]
    · simp [lookupD, hx, ih]

theorem lookupD_dictInsert_ne {α : Type} (d : Dict α) (k kx : String) (v : α)
    (h : kx ≠ k) :
    lookupD (dictInsert d k v) kx = lookupD d kx := by
  unfold dictInsert
  cases hA : d.any (fun p => p.1 == k) with
  | true => simpa using lookupD_map_ne d k kx v h
  | false => simpa using lookupD_append_ne d k kx v h

/-! ### Splitting lemmas -/

theorem pySplit_ne_nil (sep : Char) (l : List Char) : pySplit sep l ≠ [] := by
  induction l with
  | nil => simp [pySplit]
  | cons c cs ih =>
    by_cases h : c = sep
    · simp [pySplit, h]
    · simp only [pySplit, if_neg h]
      cases hs : pySplit sep cs with
      | nil => simp
      | cons seg rest => simp

theorem pySplit_length (sep : Char) (l : List Char) :
    (pySplit sep l).length = l.count sep + 1 := by
  induction l with
  | nil => simp [pySplit]
  | cons c cs ih =>
    by_cases h : c = sep
    · simp [pySplit, h, List.count_cons, ih]
    · simp only [pySplit, if_neg h]
      cases hs : pySplit sep cs with
      | nil => exact absurd hs (pySplit_ne_nil sep cs)
      | cons seg rest =>
        rw [hs] at ih
        have hcount : (c :: cs).count sep = cs.count sep := by
          simp [List.count_cons, h]
        simp only [List.length_cons, hcount]
        simpa using ih

theorem pySplit_not_mem (sep : Char) (l : List Char) (h : sep ∉ l) :
    pySplit sep l = [l] := by
  induction l with
  | nil => rfl
  | cons c cs ih =>
    have hc : c ≠ sep := fun e => h (e ▸ List.mem_cons_self c cs)
    have hcs : sep ∉ cs := fun m => h (List.mem_cons_of_mem c m)
    simp only [pySplit, if_neg hc]
    rw [ih hcs]

theorem pySplit_append (sep : Char) (l₁ l₂ : List Char) (h : sep ∉ l₁) :
    pySplit sep (l₁ ++ sep :: l₂) = l₁ :: pySplit sep l₂ := by
  induction l₁ with
  | nil => simp [pySplit]
  | cons c cs ih =>
    have hc : c ≠ sep := fun e => h (e ▸ List.mem_cons_self c cs)
    have hcs : sep ∉ cs := fun m => h (List.mem_cons_of_mem c m)
    simp only [List.cons_append, pySplit, if_neg hc, List.append_eq]
    rw [ih hcs]

/-! ### Parameter-parser lemmas -/

theorem formatLoop_eq_specPairs (segs : List String) : ∀ acc : Dict String,
    formatLoop segs acc =
      match specPairs segs with
      | some prs => .ok (prs.foldl (fun a pr => dictInsert a pr.1 pr.2) acc)
      | none => .error .valueError := by
  induction segs with
  | nil => intro acc; rfl
  | cons p rest ih =>
    intro acc
    rcases hp : pySplitStr p '=' with _ | ⟨n, _ | ⟨v, _ | ⟨w, ws⟩⟩⟩
    · simp [formatLoop, specPairs, specPair, hp]
    · simp [formatLoop, specPairs, specPair, hp]
    · simp only [formatLoop, hp]
      rw [ih (dictInsert acc n v)]
      simp only [specPairs, specPair, hp]
      cases specPairs rest <;> simp
    · simp [formatLoop, specPairs, specPair, hp]

theorem specPair_eq_none_iff (seg : String) :
    specPair seg = none ↔ seg.data.count '=' ≠ 1 := by
  have hlen := pySplit_length '=' seg.data
  unfold specPair pySplitStr
  rcases h : pySplit '=' seg.data with _ | ⟨a, _ | ⟨b, _ | ⟨c, cs⟩⟩⟩
  · exact absurd h (pySplit_ne_nil '=' seg.data)
  · rw [h] at hlen
    simp only [List.length_cons, List.length_nil] at hlen
    simp only [List.map_cons, List.map_nil]
    constructor
    · intro _; omega
    · intro _; trivial
  · rw [h] at hlen
    simp only [List.length_cons, List.length_nil] at hlen
    simp only [List.map_cons, List.map_nil]
    constructor
    · intro hcontra; exact absurd hcontra (by simp)
    · intro hne; omega
  · rw [h] at hlen
    simp only [List.length_cons] at hlen
    simp only [List.map_cons]
    constructor
    · intro _; omega
    · intro _; trivial

theorem specPairs_isSome_iff (segs : List String) :
    (specPairs segs).isSome = true ↔ ∀ seg ∈ segs, seg.data.count '=' = 1 := by
  induction segs with
  | nil => simp [specPairs]
  | cons seg rest ih =>
    rw [List.forall_mem_cons, ← ih]
    cases hp : specPair seg with
    | none =>
      have hcount : seg.data.count '=' ≠ 1 := (specPair_eq_none_iff seg).mp hp
      simp [specPairs, hp, hcount]
    | some pr =>
      have hcount : seg.data.count '=' = 1 := by
        by_contra hne
        have hn : specPair seg = none := (specPair_eq_none_iff seg).mpr hne
        rw [hp] at hn
        exact Option.noConfusion hn
      cases hr : specPairs rest with
      | none => simp [specPairs, hp, hr, hcount]
      | some prs => simp [specPairs, hp, hr, hcount]

theorem specPairs_filterMap (segs : List String) :
    ∀ prs : List (String × String), specPairs segs = some prs →
      segs.filterMap specPair = prs := by
  induction segs with
  | nil =>
    intro prs h
    simp only [specPairs, Option.some.injEq] at h
    rw [← h]
    rfl
  | cons seg rest ih =>
    intro prs h
    cases hp : specPair seg with
    | none =>
      simp only [specPairs, hp] at h
      exact Option.noConfusion h
    | some pr =>
      cases hr : specPairs rest with
      | none =>
        simp only [specPairs, hp, hr] at h
        exact Option.noConfusion h
      | some prs2 =>
        simp only [specPairs, hp, hr, Option.some.injEq] at h
        rw [List.filterMap_cons, hp, ih prs2 hr]
        simpa using h

theorem foldl_dictInsert_lookupD (k : String) (prs : List (String × String)) :
    ∀ acc : Dict String,
    lookupD (prs.foldl (fun a pr => dictInsert a pr.1 pr.2) acc) k =
      match lastVal k prs with
      | some v => some v
      | none => lookupD acc k := by
  induction prs with
  | nil => intro acc; rfl
  | cons pr rest ih =>
    intro acc
    rw [List.foldl_cons, ih]
    cases hl : lastVal k rest with
    | some v => simp [lastVal, hl]
    | none =>
      by_cases hk : (pr.1 == k) = true
      · have hpr : pr.1 = k := by simpa using hk
        simp only [lastVal, hl, if_pos hk]
        rw [hpr, lookupD_dictInsert_self]
      · have hne : k ≠ pr.1 := fun e => hk (by simp [e])
        simp only [lastVal, hl, if_neg hk]
        rw [lookupD_dictInsert_ne _ _ _ _ hne]

/-! ### Claims about the parameter parser -/

/-- Claim C2: for every input, the parameter parser returns the empty map
when the input is empty or absent, and otherwise splits the input on `;`
into segments, splits each segment on `=` into a `(key, value)` pair, and
returns the mapping of those string keys to string values, with no
whitespace trimming and no type coercion — `format_parameters` agrees
with `parseSpec`, the split-then-map reading of the wording of the spec, on
every input. -/
theorem spec_C2_parser_refines_spec :
    ∀ input : Option String, format_parameters input = parseSpec input := by
  intro input
  cases input with
  | none => rfl
  | some s =>
    by_cases hs : s = ""
    · simp [format_parameters, parseSpec, hs]
    · simp only [format_parameters, parseSpec, if_neg hs]
      rw [formatLoop_eq_specPairs]

/-- Claim C3: for every nonempty input string, the parameter parser fails
with the native unpack error (`ValueError`) exactly when some `;`-segment
lacks exactly one `=` character, and succeeds with a map when every
segment has exactly one `=`. -/
theorem spec_C3_malformed_segment (s : String) (hs : s ≠ "") :
    ((∃ seg ∈ pySplitStr s ';', seg.data.count '=' ≠ 1) →
        format_parameters (some s) = .error .valueError) ∧
    ((∀ seg ∈ pySplitStr s ';', seg.data.count '=' = 1) →
        ∃ m, format_parameters (some s) = .ok m) := by
  constructor
  · rintro ⟨seg, hmem, hcount⟩
    have hnone : specPairs (pySplitStr s ';') = none := by
      cases hsp : specPairs (pySplitStr s ';') with
      | none => rfl
      | some prs =>
        have hall := (specPairs_isSome_iff (pySplitStr s ';')).mp (by rw [hsp]; rfl)
        exact absurd (hall seg hmem) hcount
    simp only [format_parameters, if_neg hs]
    rw [formatLoop_eq_specPairs, hnone]
  · intro hall
    have hsome := (specPairs_isSome_iff (pySplitStr s ';')).mpr hall
    rcases Option.isSome_iff_exists.mp hsome with ⟨prs, hprs⟩
    refine ⟨prs.foldl (fun a pr => dictInsert a pr.1 pr.2) [], ?_⟩
    simp only [format_parameters, if_neg hs]
    rw [formatLoop_eq_specPairs, hprs]

/-- Witness for C3 at `"a=1;bad"`: the segment `bad` has no `=`, so the
parse raises the unpack error. -/
theorem spec_C3_witness :
    format_parameters (some "a=1;bad") = .error .valueError :=
  (spec_C3_malformed_segment "a=1;bad" (by decide)).1
    ⟨"bad", by decide, by decide⟩

/-- Claim C4: whenever the parameter parser returns a map, each key is
mapped to the value of the *last* `;`-segment carrying that key
(overwrite semantics), as computed by `lastVal` over the segment pairs in
input order. -/
theorem spec_C4_last_occurrence_wins (s : String) (m : Dict String)
    (hm : format_parameters (some s) = .ok m) :
    ∀ k, lookupD m k = lastVal k (segmentPairs s) := by
  intro k
  by_cases hs : s = ""
  · subst hs
    have hval : format_parameters (some "") = Except.ok [] := rfl
    rw [hval] at hm
    injection hm with hm
    rw [← hm]
    rfl
  · simp only [format_parameters, if_neg hs] at hm
    rw [formatLoop_eq_specPairs] at hm
    cases hsp : specPairs (pySplitStr s ';') with
    | none =>
      rw [hsp] at hm
      exact Except.noConfusion hm
    | some prs =>
      rw [hsp] at hm
      simp only [Except.ok.injEq] at hm
      rw [← hm, segmentPairs, specPairs_filterMap (pySplitStr s ';') prs hsp]
      rw [foldl_dictInsert_lookupD]
      cases lastVal k prs <;> rfl

/-- Witness for C4 at `parse("a=1;a=2")`: the key `a` maps to `"2"`, the
value of the last occurrence. -/
theorem spec_C4_witness :
    lookupD [("a", "2")] "a" = lastVal "a" (segmentPairs "a=1;a=2") :=
  spec_C4_last_occurrence_wins "a=1;a=2" [("a", "2")] (by rfl) "a"

/-- Claim C10: the parameter parser accepts empty keys and empty values
without error: an input consisting of a segment `k=` maps the key to the
empty string, and the input `=` maps the empty-string key to the
empty-string value. -/
theorem spec_C10_empty_keys_values (k : String)
    (h1 : ';' ∉ k.data) (h2 : '=' ∉ k.data) :
    format_parameters (some (k ++ "=")) = .ok [(k, "")] ∧
    format_parameters (some "=") = .ok [("", "")] := by
  constructor
  · have hdata : (k ++ "=").data = k.data ++ ['='] := by
      cases k
      rfl
    have hnil : (k ++ "=") ≠ "" := by
      intro h
      have hd : (k ++ "=").data = ([] : List Char) := by rw [h]
      rw [hdata] at hd
      simp at hd
    have hmem : ';' ∉ (k ++ "=").data := by
      rw [hdata]
      intro hm
      rcases List.mem_append.mp hm with hm1 | hm2
      · exact h1 hm1
      · simp at hm2
    have hsplit1 : pySplitStr (k ++ "=") ';' = [k ++ "="] := by
      unfold pySplitStr
      rw [pySplit_not_mem ';' _ hmem]
      rfl
    have hsplit2 : pySplitStr (k ++ "=") '=' = [k, ""] := by
      unfold pySplitStr
      rw [hdata]
      have hform : k.data ++ ['='] = k.data ++ '=' :: ([] : List Char) := rfl
      rw [hform, pySplit_append '=' k.data [] h2]
      rfl
    simp only [format_parameters, if_neg hnil, hsplit1]
    simp only [formatLoop, hsplit2]
    rfl
  · rfl

/-- Witness for C10 at `key=`: the key `key` is mapped to the empty
string. -/
theorem spec_C10_witness :
    format_parameters (some ("key" ++ "=")) = .ok [("key", "")] :=
  (spec_C10_empty_keys_values "key" (by decide) (by decide)).1

/-! ### Claims about the template-source resolver -/

/-- Claim C1: when none of the file, url and object arguments is set
(each absent or empty), the resolver raises a `CommandError` with exactly
the message
`Need to specify exactly one of --template-file, --template-url or --template-object`,
and the payload is returned unchanged (no template field added). -/
theorem spec_C1_no_source_error (rf : String → String) (hc : Client)
    (args : Args) (fields : Dict FieldValue)
    (h1 : truthy args.template_file = false)
    (h2 : truthy args.template_url = false)
    (h3 : truthy args.template_obj = false) :
    set_template_fields rf hc args fields =
      (fields, some (.commandError
        "Need to specify exactly one of --template-file, --template-url or --template-object")) := by
  simp [set_template_fields, h1, h2, h3]

/-- Witness for C1: a call with all three template flags absent. -/
theorem spec_C1_witness :
    set_template_fields (fun _ => "") trivClient noSourceArgs [] =
      ([], some (.commandError
        "Need to specify exactly one of --template-file, --template-url or --template-object")) :=
  spec_C1_no_source_error (fun _ => "") trivClient noSourceArgs [] rfl rfl rfl

/-- Claim C5: the resolver checks the sources in the priority order file,
url, object, silently ignoring later ones: whenever the file argument is
set (to a nonempty path) the payload gets `template` from the file read
and parsed as JSON, regardless of the other arguments; and whenever the
file argument is falsy but the url argument is set, the payload gets
`template_url` equal to the url argument, with no fetch performed (the
result is independent of the filesystem and of the transport). -/
theorem spec_C5_priority_order (rf : String → String) (hc : Client)
    (args : Args) (fields : Dict FieldValue) :
    (∀ f : String, args.template_file = some f → f ≠ "" →
      set_template_fields rf hc args fields =
        (dictInsert fields "template" (FieldValue.doc (JsonDoc.loads (rf f))), none)) ∧
    (truthy args.template_file = false →
      ∀ u : String, args.template_url = some u → u ≠ "" →
      set_template_fields rf hc args fields =
        (dictInsert fields "template_url" (FieldValue.str u), none)) := by
  constructor
  · intro f hf hne
    have ht : truthy (some f) = true := by simp [truthy, hne]
    simp [set_template_fields, hf, ht]
  · intro h1 u hu hne
    have ht : truthy (some u) = true := by simp [truthy, hne]
    simp [set_template_fields, h1, hu, ht]

/-- Witness for C5: with both a file and a url set, the file wins and the
url is silently ignored. -/
theorem spec_C5_witness :
    set_template_fields (fun _ => "body") trivClient fileAndUrlArgs [] =
      ([("template", FieldValue.doc (JsonDoc.loads "body"))], none) :=
  (spec_C5_priority_order (fun _ => "body") trivClient fileAndUrlArgs []).1
    "t.json" rfl (by decide)

/-- Claim C6: with only the object argument set, the resolver performs a
raw GET fetch of that url: when the fetched body is empty/falsy it raises
`CommandError` with message `Could not fetch template from <objectArg>`
leaving the payload unchanged, and otherwise it sets the payload
`template` field to the fetched body parsed as JSON. -/
theorem spec_C6_object_fetch (rf : String → String) (hc : Client)
    (args : Args) (fields : Dict FieldValue) (o : String)
    (h1 : truthy args.template_file = false)
    (h2 : truthy args.template_url = false)
    (ho : args.template_obj = some o) (hne : o ≠ "") :
    (hc.rawRequest "GET" o ≠ "" →
      set_template_fields rf hc args fields =
        (dictInsert fields "template"
          (FieldValue.doc (JsonDoc.loads (hc.rawRequest "GET" o))), none)) ∧
    (hc.rawRequest "GET" o = "" →
      set_template_fields rf hc args fields =
        (fields, some (.commandError ("Could not fetch template from " ++ o)))) := by
  have ht : truthy (some o) = true := by simp [truthy, hne]
  constructor
  · intro hb
    simp [set_template_fields, h1, h2, ho, ht, hb]
  · intro hb
    simp [set_template_fields, h1, h2, ho, ht, hb]

/-- Witness for C6: fetching the template object over a transport that
returns an empty body raises the fetch error. -/
theorem spec_C6_witness :
    set_template_fields (fun _ => "") trivClient objOnlyArgs [] =
      ([], some (.commandError ("Could not fetch template from " ++ "swift://tmpl"))) :=
  (spec_C6_object_fetch (fun _ => "") trivClient objOnlyArgs [] "swift://tmpl"
    rfl rfl rfl (by decide)).2 rfl

/-- Counterexample to claim C9 as stated: when the payload already holds
a `template` entry and the file argument is set to a file holding the
empty JSON object (a body `json.loads` parses successfully, so the
assignment is reached), the resolver overwrites that entry, so an entry
already present in the mapping is *not* left unchanged. -/
theorem spec_C9_counterexample :
    lookupD (set_template_fields (fun _ => "\x7b\x7d") trivClient fileAndUrlArgs
        [("template", FieldValue.str "old")]).1 "template" ≠
      some (FieldValue.str "old") := by
  decide

/-- Claim C9 as amended: for every call to the resolver, at most one key
— either `template` or `template_url`, never both — is written to the
payload (an entry already present under that key being overwritten),
every entry at any other key is left unchanged, and whenever the resolver
raises an error the payload is exactly as it was before the call. -/
theorem spec_C9_frame (rf : String → String) (hc : Client) (args : Args)
    (fields : Dict FieldValue) :
    ((set_template_fields rf hc args fields).2.isSome = true →
      (set_template_fields rf hc args fields).1 = fields) ∧
    (∀ k, k ≠ "template" → k ≠ "template_url" →
      lookupD (set_template_fields rf hc args fields).1 k = lookupD fields k) ∧
    ((set_template_fields rf hc args fields).1 = fields ∨
      (∃ v, (set_template_fields rf hc args fields).1 =
        dictInsert fields "template" v) ∨
      (∃ v, (set_template_fields rf hc args fields).1 =
        dictInsert fields "template_url" v)) := by
  unfold set_template_fields
  by_cases h1 : truthy args.template_file = true
  · rw [if_pos h1]
    refine ⟨by simp, fun k hk1 _ => lookupD_dictInsert_ne _ _ _ _ hk1,
      Or.inr (Or.inl ⟨_, rfl⟩)⟩
  · rw [if_neg h1]
    by_cases h2 : truthy args.template_url = true
    · rw [if_pos h2]
      refine ⟨by simp, fun k _ hk2 => lookupD_dictInsert_ne _ _ _ _ hk2,
        Or.inr (Or.inr ⟨_, rfl⟩)⟩
    · rw [if_neg h2]
      by_cases h3 : truthy args.template_obj = true
      · rw [if_pos h3]
        by_cases hb : hc.rawRequest "GET" (args.template_obj.getD "") ≠ ""
        · rw [if_pos hb]
          refine ⟨by simp, fun k hk1 _ => lookupD_dictInsert_ne _ _ _ _ hk1,
            Or.inr (Or.inl ⟨_, rfl⟩)⟩
        · rw [if_neg hb]
          exact ⟨fun _ => rfl, fun k _ _ => rfl, Or.inl rfl⟩
      · rw [if_neg h3]
        exact ⟨fun _ => rfl, fun k _ _ => rfl, Or.inl rfl⟩

/-- Witness for the amended C9: an erroring call (no source set) leaves
the payload exactly as it was. -/
theorem spec_C9_witness :
    (set_template_fields (fun _ => "") trivClient noSourceArgs
      [("parameters", FieldValue.params [])]).1 =
      [("parameters", FieldValue.params [])] :=
  (spec_C9_frame (fun _ => "") trivClient noSourceArgs
    [("parameters", FieldValue.params [])]).1 (by decide)

/-! ### Claims about the command handlers -/

/-- Claim C7: for every stack id, when the remote client raises
`HTTPNotFound` during the delete, describe or get-template command, the
handler re-raises it as `CommandError` with message
`Stack not found: <id>`; any other remote failure propagates unmodified
to the caller. -/
theorem spec_C7_not_found_translation (hc : Client) (args : Args) :
    ((hc.deleteResult [("stack_id", FieldValue.str args.id)] =
        .error .httpNotFound →
      do_delete hc args =
        .error (.commandError ("Stack not found: " ++ args.id))) ∧
     (∀ e : PyExc, e ≠ .httpNotFound →
      hc.deleteResult [("stack_id", FieldValue.str args.id)] = .error e →
      do_delete hc args = .error e)) ∧
    ((hc.getResult [("stack_id", FieldValue.str args.id)] =
        .error .httpNotFound →
      do_describe hc args =
        .error (.commandError ("Stack not found: " ++ args.id))) ∧
     (∀ e : PyExc, e ≠ .httpNotFound →
      hc.getResult [("stack_id", FieldValue.str args.id)] = .error e →
      do_describe hc args = .error e)) ∧
    ((hc.templateResult [("stack_id", FieldValue.str args.id)] =
        .error .httpNotFound →
      do_gettemplate hc args =
        .error (.commandError ("Stack not found: " ++ args.id))) ∧
     (∀ e : PyExc, e ≠ .httpNotFound →
      hc.templateResult [("stack_id", FieldValue.str args.id)] = .error e →
      do_gettemplate hc args = .error e)) := by
  refine ⟨⟨?_, ?_⟩, ⟨?_, ?_⟩, ⟨?_, ?_⟩⟩
  · intro h
    simp [do_delete, h]
  · intro e he h
    cases e with
    | httpNotFound => exact absurd rfl he
    | commandError s => simp [do_delete, h]
    | valueError => simp [do_delete, h]
    | otherExc s => simp [do_delete, h]
  · intro h
    simp [do_describe, h]
  · intro e he h
    cases e with
    | httpNotFound => exact absurd rfl he
    | commandError s => simp [do_describe, h]
    | valueError => simp [do_describe, h]
    | otherExc s => simp [do_describe, h]
  · intro h
    simp [do_gettemplate, h]
  · intro e he h
    cases e with
    | httpNotFound => exact absurd rfl he
    | commandError s => simp [do_gettemplate, h]
    | valueError => simp [do_gettemplate, h]
    | otherExc s => simp [do_gettemplate, h]

/-- Witness for C7: deleting stack `42` on a client that reports it not
found raises the friendly command error. -/
theorem spec_C7_witness :
    do_delete notFoundClient stack42Args =
      .error (.commandError ("Stack not found: " ++ "42")) :=
  ((spec_C7_not_found_translation notFoundClient stack42Args).1).1 rfl

/-- Claim C8: a create invocation with stack name `foo`, a template file
containing the document of `resourcesTemplateText`, no parameters flag
and no timeout flag calls the remote `stacks.create` with exactly
`stack_name = "foo"`, `timeoutmins = 60` (the default), an empty
parameter map and the parsed template, and afterwards performs a
`stacks.list` call. -/
theorem spec_C8_create_end_to_end (hc : Client) (rf : String → String)
    (path : String) (hpath : path ≠ "")
    (hread : rf path = resourcesTemplateText)
    (hcreate : hc.createResult createFooFields = .ok ())
    (hlist : hc.listResult = .ok ()) :
    do_create rf hc (createFooArgs path) =
      .ok [Call.create createFooFields, Call.list] := by
  simp only [createFooFields] at hcreate
  simp [do_create, do_list, set_template_fields, truthy, createFooArgs,
    createFooFields, format_parameters, dictInsert, hpath, hread, hcreate, hlist]

/-- Witness for C8: the scenario run on a concrete client and filesystem. -/
theorem spec_C8_witness :
    do_create (fun _ => resourcesTemplateText) trivClient
      (createFooArgs "stack.json") =
      .ok [Call.create createFooFields, Call.list] :=
  spec_C8_create_end_to_end trivClient (fun _ => resourcesTemplateText)
    "stack.json" (by decide) rfl rfl rfl
